import Mathlib

/-
Verification development for the event-driven narrative generation pipeline
of the CC-Agents simulation (convex/worldStory.ts and convex/constants.ts).

The persisted per-world state (the worldPlot row, the worldStory passage log,
the themeMutations log and the messages table) is embedded as a Lean
structure, and each Convex query/mutation/action of the pipeline is embedded
as a function on that state.  The external generation service is modelled by
an `Option String` parameter: `none` is a failed or timed-out call, `some c`
is a call returning the text `c`.  Scheduled jobs are modelled as separate
operations of a trace; traces are serialized (the storage substrate's
single-writer-per-record semantics).
-/

namespace WorldStory

/-- One pending utterance inside `Plot.conversationStacks`
(the object pushed by `pushToConversationStackMutation`). -/
structure StackMsg where
  messageId : String
  text : String
  conversationId : String
  authorName : String
  timestamp : Nat
deriving DecidableEq, Repr

/-- One `worldStory` row (a story passage), as inserted by `saveNarrative`. -/
structure Passage where
  narrative : String
  conflictType : String
  sourceMessages : List String
  characterNames : List String
  timestamp : Nat
deriving DecidableEq, Repr

/-- One `themeMutations` row, as inserted by `saveThemeMutation`. -/
structure ThemeMutationRow where
  mutationIndex : Nat
  previousTheme : String
  newTheme : String
  mutationDescription : String
  sourceConversationId : String
  sourceMessageIds : List String
  characterNames : List String
  timestamp : Nat
deriving DecidableEq, Repr

/-- One row of the `messages` table (joined with the author's name, as
`getAllMessagesSince` returns it). -/
structure MessageRow where
  id : String
  author : String
  text : String
  conversationId : String
  authorName : String
  creationTime : Nat
deriving DecidableEq, Repr

/-- The `worldPlot` row of one world.  Optional JS fields that are read
through `|| fallback` are embedded with their falsy default where the
fallback is total (`conversationStacks`, `isComplete`), and as `Option`
where truthiness matters (`lastStoryGenerationTime`, `evolvedTheme`,
`finalSummary`). -/
structure Plot where
  initialPlot : String
  currentSummary : String
  lastProcessedMessageTime : Nat
  processedMessageIds : List String
  lastStoryGenerationTime : Option Nat
  storyProgress : String
  lastSummaryTime : Nat
  totalDialogueCount : Nat
  conversationStacks : List (String × List StackMsg)
  evolvedTheme : Option String
  isComplete : Bool
  finalSummary : Option String
deriving DecidableEq, Repr

/-- The persisted state of one world that the story pipeline reads and
writes, plus the set of human player ids of the world document. -/
structure WorldState where
  plot : Option Plot
  passages : List Passage
  themeMutations : List ThemeMutationRow
  messages : List MessageRow
  humanPlayers : List String
deriving DecidableEq, Repr

/-- `MAX_PASSAGES` from worldStory.ts. -/
def MAX_PASSAGES : Nat := 12

/-- `STORY_GENERATION_COOLDOWN` from constants.ts (30 seconds in ms). -/
def STORY_GENERATION_COOLDOWN : Nat := 30000

/-- `MIN_MESSAGES_FOR_STORY` from constants.ts. -/
def MIN_MESSAGES_FOR_STORY : Nat := 3

/-- `MIN_MESSAGES_IN_CONVERSATION` from constants.ts. -/
def MIN_MESSAGES_IN_CONVERSATION : Nat := 2

/-- JS `a || b` for an optional string `a` (undefined and the empty string
are falsy). -/
def jsOrOpt : Option String → String → String
  | some s, d => if s = "" then d else s
  | none, d => d

/-- JS truthiness of an optional string field. -/
def jsTruthy : Option String → Bool
  | some s => s ≠ ""
  | none => false

/-- Adding an element to a JS `Set` materialized as an insertion-ordered,
duplicate-free list. -/
def setAdd (l : List String) (x : String) : List String :=
  if x ∈ l then l else l ++ [x]

/-- `Array.from(new Set(l))`: deduplicate keeping first occurrences. -/
def dedupPreserve (l : List String) : List String :=
  l.foldl setAdd []

/-- `Array.from(s)` after `const s = new Set(old); for (x of xs) s.add(x)`:
the set-union merge performed by `saveNarrative` on processed ids. -/
def setUnion (old xs : List String) : List String :=
  xs.foldl setAdd (dedupPreserve old)

/-- `msg.conversationId?.toString() || 'unknown'` (grouping key). -/
def convKey (m : StackMsg) : String :=
  if m.conversationId = "" then "unknown" else m.conversationId

/-- JS whitespace characters relevant to `String.prototype.trim`. -/
def isWS (c : Char) : Bool :=
  c ∈ [' ', '\n', '\t', '\r']

/-- `content.trim()` modelled over the character list. -/
def jsTrim (s : String) : String :=
  ⟨((s.data.dropWhile isWS).reverse.dropWhile isWS).reverse⟩

/-- `s.toLowerCase()` (ASCII case folding suffices for the keyword lists). -/
def jsToLower (s : String) : String :=
  ⟨s.data.map Char.toLower⟩

/-- Boolean prefix test on character lists. -/
def isPfxB : List Char → List Char → Bool
  | [], _ => true
  | _ :: _, [] => false
  | a :: as, b :: bs => (a == b) && isPfxB as bs

/-- Boolean infix test on character lists. -/
def isInfixB (sub : List Char) : List Char → Bool
  | [] => sub.isEmpty
  | c :: rest => isPfxB sub (c :: rest) || isInfixB sub rest

/-- `s.includes(sub)`. -/
def jsIncludes (s sub : String) : Bool :=
  isInfixB sub.data s.data

/-- `detectConflictType` from worldStory.ts: keyword classification of the
generated narrative into a closed set of conflict tags. -/
def detectConflictType (narrative : String) : String :=
  let lower := jsToLower narrative
  if jsIncludes lower "betray" || jsIncludes lower "decei" || jsIncludes lower "trick" then
    "⚔️ Betrayal"
  else if jsIncludes lower "attack" || jsIncludes lower "fight" || jsIncludes lower "battle" || jsIncludes lower "confront" then
    "⚔️ Confrontation"
  else if jsIncludes lower "alliance" || jsIncludes lower "join forces" || jsIncludes lower "united" then
    "🤝 Alliance"
  else if jsIncludes lower "quest" || jsIncludes lower "mission" || jsIncludes lower "journey" then
    "🗺️ Quest"
  else if jsIncludes lower "mystery" || jsIncludes lower "secret" || jsIncludes lower "hidden" || jsIncludes lower "discover" then
    "🔍 Mystery"
  else if jsIncludes lower "danger" || jsIncludes lower "threat" || jsIncludes lower "warning" then
    "⚠️ Danger"
  else if jsIncludes lower "challenge" || jsIncludes lower "test" || jsIncludes lower "prove" then
    "💪 Challenge"
  else
    "⚔️ Conflict"

/-- The unprocessed stack messages of a plot, each tagged with whether its
stack's owner is a human player — the traversal shared by
`shouldTriggerStoryGeneration` (which builds `allUnprocessedMessages` and
`humanMessages` in this order). -/
def unprocessedTagged (humanIds : List String) (plot : Plot) : List (StackMsg × Bool) :=
  (plot.conversationStacks.map fun p =>
    (p.2.filter fun m => !(decide (m.messageId ∈ plot.processedMessageIds))).map
      fun m => (m, decide (p.1 ∈ humanIds))).flatten

/-- The unprocessed stack messages of a plot, in stack-iteration order —
the `allStackMessages` collection of `getNarrativeData`. -/
def unprocessedOf (plot : Plot) : List StackMsg :=
  (plot.conversationStacks.map fun p =>
    p.2.filter fun m => !(decide (m.messageId ∈ plot.processedMessageIds))).flatten

/-- `unprocessedOf` on a state (empty when no plot exists). -/
def unprocessedListOf (st : WorldState) : List StackMsg :=
  match st.plot with
  | some p => unprocessedOf p
  | none => []

/-- The trigger evaluator's count of unprocessed messages
(`allUnprocessedMessages.length`). -/
def triggerUnprocessedCount (st : WorldState) : Nat :=
  match st.plot with
  | some p => (unprocessedTagged st.humanPlayers p).length
  | none => 0

/-- `shouldTriggerStoryGeneration` from worldStory.ts, reduced to the
`shouldTrigger` flag (the structured reason string is observability only).
A conversation group of size ≥ k exists iff some message's own group has
size ≥ k, which is how the meaningful-conversation check is rendered. -/
def shouldTriggerStoryGeneration (prioritizeHuman : Bool) (now : Nat) (st : WorldState) : Bool :=
  match st.plot with
  | none => false
  | some plot =>
    let tagged := unprocessedTagged st.humanPlayers plot
    let allUnprocessed := tagged.map Prod.fst
    let humanMsgs := (tagged.filter fun p => p.2).map Prod.fst
    let hasHumanMessages := !humanMsgs.isEmpty
    let isHumanPriority := prioritizeHuman || hasHumanMessages
    if !isHumanPriority && decide (now - plot.lastStoryGenerationTime.getD 0 < STORY_GENERATION_COOLDOWN) then
      false
    else
      let minMessages := if isHumanPriority then 1 else MIN_MESSAGES_FOR_STORY
      let minPerConv := if isHumanPriority then 1 else MIN_MESSAGES_IN_CONVERSATION
      let messagesToCheck := if isHumanPriority && hasHumanMessages then humanMsgs else allUnprocessed
      if messagesToCheck.length < minMessages then
        false
      else
        messagesToCheck.any fun m =>
          decide (minPerConv ≤ (messagesToCheck.filter fun m2 => convKey m2 = convKey m).length)

/-- Appending to `stacks[playerId]` (creating the key at the end of the
object's insertion order when absent). -/
def stackPush (stackList : List (String × List StackMsg)) (pid : String) (m : StackMsg) :
    List (String × List StackMsg) :=
  if stackList.any fun p => p.1 = pid then
    stackList.map fun p => if p.1 = pid then (p.1, p.2 ++ [m]) else p
  else
    stackList ++ [(pid, [m])]

/-- `pushToConversationStackMutation` from worldStory.ts: append the
utterance to the author's conversation stack; a no-op when no plot exists. -/
def pushToConversationStackMutation (pid : String) (m : StackMsg) (st : WorldState) : WorldState :=
  match st.plot with
  | none => st
  | some plot =>
    { st with plot := some { plot with conversationStacks := stackPush plot.conversationStacks pid m } }

/-- Folding a list of message rows through the push mutation (the loop of
`syncMessagesToStacks`). -/
def pushMany (l : List MessageRow) (st : WorldState) : WorldState :=
  l.foldl (fun s m =>
    pushToConversationStackMutation m.author ⟨m.id, m.text, m.conversationId, m.authorName, m.creationTime⟩ s) st

/-- `syncMessagesToStacks` from worldStory.ts: push every message newer than
`lastProcessedMessageTime` (via `getAllMessagesSince`) into the stacks. -/
def syncMessagesToStacks (st : WorldState) : WorldState :=
  match st.plot with
  | none => st
  | some plot =>
    pushMany (st.messages.filter fun m => decide (plot.lastProcessedMessageTime < m.creationTime)) st

/-- The data `getNarrativeData` hands to `generateNarrative`: the unprocessed
stack messages (`messagesWithAuthors`) and the current passage count. -/
structure NarrativeData where
  messages : List StackMsg
  passageCount : Nat
deriving DecidableEq, Repr

/-- `getNarrativeData` from worldStory.ts: `none` when no plot exists or no
unprocessed stack message remains. -/
def getNarrativeData (st : WorldState) : Option NarrativeData :=
  match st.plot with
  | none => none
  | some plot =>
    let msgs := unprocessedOf plot
    if msgs.isEmpty then none else some ⟨msgs, st.passages.length⟩

/-- `Math.max(...timestamps)` over the batch (the batch is nonempty). -/
def maxTimestamp (l : List StackMsg) : Nat :=
  l.foldl (fun a m => max a m.timestamp) 0

/-- `saveNarrative` from worldStory.ts: the single mutation that inserts the
passage row, merges the consumed ids into `processedMessageIds` (set union),
stamps `lastProcessedMessageTime` and `lastStoryGenerationTime`, counts the
batch's distinct conversations into `totalDialogueCount` and clears the
conversation stacks. -/
def saveNarrative (narrative conflictType : String) (sourceMessages characterNames : List String)
    (lastProcessedTime : Nat) (processedMessageIds conversationIds : List String)
    (now : Nat) (st : WorldState) : WorldState :=
  let st1 := { st with
    passages := st.passages ++
      [(⟨narrative, conflictType, sourceMessages, characterNames, now⟩ : Passage)] }
  match st1.plot with
  | none => st1
  | some plot =>
    { st1 with plot := some { plot with
        lastProcessedMessageTime := lastProcessedTime,
        processedMessageIds := setUnion plot.processedMessageIds processedMessageIds,
        lastStoryGenerationTime := some now,
        totalDialogueCount := plot.totalDialogueCount + (dedupPreserve conversationIds).length,
        conversationStacks := [] } }

/-- The four structural phases of the passage state machine. -/
inductive Phase where
  | beginning
  | rising
  | climax
  | conclusion
deriving DecidableEq, Repr

/-- `getPassagePhase` from worldStory.ts: stages change every 3 passages. -/
def getPassagePhase (passageNumber : Nat) : Phase :=
  if passageNumber ≤ 3 then .beginning
  else if passageNumber ≤ 6 then .rising
  else if passageNumber ≤ 9 then .climax
  else .conclusion

/-- `nextPassageNumber === MAX_PASSAGES` in `generateNarrative`. -/
def isFinalPassage (passageNumber : Nat) : Bool :=
  passageNumber == MAX_PASSAGES

/-- `determineStoryProgress` from worldStory.ts. -/
def determineStoryProgress (entryCount : Nat) : String :=
  if entryCount ≤ 3 then "beginning"
  else if entryCount ≤ 6 then "rising"
  else if entryCount ≤ 9 then "climax"
  else "conclusion"

/-- The body of `generateNarrative` after the initial stack re-sync: bail out
with no data or at the passage cap, otherwise call the generation service
(`llm`) and, on success, run `saveNarrative` on the trimmed sentence, the
detected conflict tag, the batch's message ids (both as `sourceMessages` and
as the newly processed ids), the deduplicated author names, the maximal batch
timestamp and the batch's distinct conversation ids.  A failed service call
(`llm = none`) is caught and leaves the state as the re-sync left it. -/
def generateAfterSync (llm : Option String) (now : Nat) (st1 : WorldState) : WorldState :=
  match getNarrativeData st1 with
  | none => st1
  | some data =>
    if MAX_PASSAGES ≤ data.passageCount then st1
    else
      match llm with
      | none => st1
      | some content =>
        saveNarrative (jsTrim content) (detectConflictType content)
          (data.messages.map (·.messageId))
          (dedupPreserve (data.messages.map (·.authorName)))
          (maxTimestamp data.messages)
          (data.messages.map (·.messageId))
          (dedupPreserve ((data.messages.map convKey).filter fun c => c != "unknown"))
          now st1

/-- `generateNarrative` from worldStory.ts: one firing of the passage
generator (re-sync, read, guard, generate, persist). -/
def generateNarrativeRun (llm : Option String) (now : Nat) (st : WorldState) : WorldState :=
  generateAfterSync llm now (syncMessagesToStacks st)

/-- `extractAndSaveThemeMutation` from worldStory.ts.  `parsed` models the
JSON fragment extracted from the generation service's reply
(`(newTheme?, mutationDescription?)`); `none` is a failed call, a missing
plot inside `extractThemeMutation`, or a parse failure, all of which drop
the mutation.  On success the row is appended with the next index and
`Plot.evolvedTheme` is updated (`updateEvolvedTheme`). -/
def extractAndSaveThemeMutationRun (parsed : Option (Option String × Option String))
    (conversationId : String) (characterNames sourceMessageIds : List String)
    (now : Nat) (st : WorldState) : WorldState :=
  match st.plot, parsed with
  | none, _ => st
  | some _, none => st
  | some plot, some (newThemeOpt, descOpt) =>
    let mutationIndex := st.themeMutations.length
    let previousTheme := jsOrOpt plot.evolvedTheme plot.initialPlot
    let newTheme := jsOrOpt newThemeOpt previousTheme
    let desc := jsOrOpt descOpt "Theme evolved through character interactions"
    { st with
      themeMutations := st.themeMutations ++
        [(⟨mutationIndex, previousTheme, newTheme, desc, conversationId, sourceMessageIds,
           characterNames, now⟩ : ThemeMutationRow)],
      plot := some { plot with evolvedTheme := some newTheme } }

/-- The comparator of `getThemeMutations` (`a.mutationIndex - b.mutationIndex`). -/
def themeLe (a b : ThemeMutationRow) : Prop :=
  a.mutationIndex ≤ b.mutationIndex

instance : DecidableRel themeLe := fun a b => Nat.decLe a.mutationIndex b.mutationIndex

/-- `getThemeMutations` from worldStory.ts: the rows sorted (stably) by
`mutationIndex`. -/
def getThemeMutationsOf (st : WorldState) : List ThemeMutationRow :=
  List.insertionSort themeLe st.themeMutations

/-- `updatePlotCompletion` from worldStory.ts. -/
def updatePlotCompletion (finalSummary : String) (isComplete : Bool) (st : WorldState) : WorldState :=
  match st.plot with
  | none => st
  | some plot =>
    { st with plot := some { plot with finalSummary := some finalSummary, isComplete := isComplete } }

/-- The boilerplate prefixes stripped from generated summaries. -/
def summaryPrefixes : List String :=
  ["Here is a simple summary of the story:",
   "Here is the summary:",
   "Summary:",
   "Here" ++ "\x27" ++ "s the summary:",
   "Simple summary:"]

/-- `s.toLowerCase().startsWith(p.toLowerCase())`. -/
def startsWithCI (s p : String) : Bool :=
  isPfxB (jsToLower p).data (jsToLower s).data

/-- `s.split(nl)` on the newline character. -/
def splitLines (s : String) : List String :=
  (s.splitOn "\n")

/-- The final-summary cleanup of `generateFinalSummary`: trim, strip known
prefixes, keep at most the first two nonempty lines. -/
def cleanFinalSummary (content : String) : String :=
  let s := summaryPrefixes.foldl
    (fun acc p => if startsWithCI acc p then jsTrim (acc.drop p.length) else acc)
    (jsTrim content)
  let lines := ((splitLines s).filter fun l => (jsTrim l).length > 0).take 2
  jsTrim (String.intercalate "\n" lines)

/-- `generateFinalSummary` from worldStory.ts: the one-shot finalizer.  It
returns the state it leaves behind and the summary it returns: `none` when
there are fewer than `MAX_PASSAGES` passages, no plot exists, or the service
call fails; the already-stored summary when `isComplete && finalSummary` is
truthy; otherwise it writes the cleaned generated summary together with
`isComplete = true` via `updatePlotCompletion`. -/
def generateFinalSummaryRun (llm : Option String) (st : WorldState) : WorldState × Option String :=
  let allStories := ((st.passages.reverse.take MAX_PASSAGES).reverse)
  if allStories.length < MAX_PASSAGES then (st, none)
  else
    match st.plot with
    | none => (st, none)
    | some plot =>
      if plot.isComplete && jsTruthy plot.finalSummary then (st, plot.finalSummary)
      else
        match llm with
        | none => (st, none)
        | some content =>
          let cleanSummary := cleanFinalSummary content
          (updatePlotCompletion cleanSummary true st, some cleanSummary)

/-- `updatePlotSummary` from worldStory.ts (the persistence step of the plot
summary compactor; the generated text and progress string are parameters). -/
def updatePlotSummaryRun (currentSummary storyProgress : String) (now : Nat) (st : WorldState) : WorldState :=
  match st.plot with
  | none => st
  | some plot =>
    { st with plot := some { plot with
        currentSummary := currentSummary, lastSummaryTime := now, storyProgress := storyProgress } }

/-- `createWorldPlot` from worldStory.ts: check-then-insert under a race
guard; the fresh plot starts with empty tracking state. -/
def createWorldPlotRun (initialPlot currentSummary : String) (now : Nat) (st : WorldState) : WorldState :=
  match st.plot with
  | some _ => st
  | none =>
    { st with plot := some {
        initialPlot := initialPlot,
        currentSummary := currentSummary,
        lastProcessedMessageTime := 0,
        processedMessageIds := [],
        lastStoryGenerationTime := none,
        storyProgress := "beginning",
        lastSummaryTime := now,
        totalDialogueCount := 0,
        conversationStacks := [],
        evolvedTheme := none,
        isComplete := false,
        finalSummary := none } }

/-- `writeMessage` from messages.ts restricted to its effect on the story
pipeline's state: the message row is inserted. -/
def writeMessageRun (m : MessageRow) (st : WorldState) : WorldState :=
  { st with messages := st.messages ++ [m] }

/-- The schedulable units of work of the story pipeline (§2 of the design):
plot creation, message arrival, the accumulator push, the pre-generation
re-sync, one passage-generator firing, one theme-mutation extraction, one
finalizer run and one plot-summary update.  Service calls and parsed
service replies are parameters of the corresponding operations. -/
inductive Op where
  | createPlot (initialPlot currentSummary : String) (now : Nat)
  | writeMessage (m : MessageRow)
  | push (playerId : String) (m : StackMsg)
  | sync
  | generate (llm : Option String) (now : Nat)
  | themeMutate (parsed : Option (Option String × Option String))
      (conversationId : String) (characterNames sourceMessageIds : List String) (now : Nat)
  | finalize (llm : Option String)
  | plotSummary (summary progress : String) (now : Nat)
deriving DecidableEq, Repr

/-- Interpreting one scheduled job on the world state. -/
def applyOp (st : WorldState) : Op → WorldState
  | .createPlot ip cs now => createWorldPlotRun ip cs now st
  | .writeMessage m => writeMessageRun m st
  | .push pid m => pushToConversationStackMutation pid m st
  | .sync => syncMessagesToStacks st
  | .generate llm now => generateNarrativeRun llm now st
  | .themeMutate parsed cid names srcIds now =>
      extractAndSaveThemeMutationRun parsed cid names srcIds now st
  | .finalize llm => (generateFinalSummaryRun llm st).1
  | .plotSummary s p now => updatePlotSummaryRun s p now st

/-- A fresh world: no plot, no passages, no mutations, no messages. -/
def initState (humans : List String) : WorldState :=
  { plot := none, passages := [], themeMutations := [], messages := [], humanPlayers := humans }

/-- Running a serialized trace of jobs from a fresh world. -/
def runOps (humans : List String) (ops : List Op) : WorldState :=
  ops.foldl applyOp (initState humans)

/-- The processed-utterance-ID set of a state. -/
def processedIdsOf (st : WorldState) : List String :=
  match st.plot with
  | some p => p.processedMessageIds
  | none => []

/-- The conversation stacks of a state. -/
def stacksOf (st : WorldState) : List (String × List StackMsg) :=
  match st.plot with
  | some p => p.conversationStacks
  | none => []

/-- The `lastStoryGenerationTime` of a state. -/
def lastGenOf (st : WorldState) : Option Nat :=
  match st.plot with
  | some p => p.lastStoryGenerationTime
  | none => none

/-- The `isComplete` flag of a state. -/
def isCompleteOf (st : WorldState) : Bool :=
  match st.plot with
  | some p => p.isComplete
  | none => false

/-- The `finalSummary` of a state. -/
def finalSummaryOf (st : WorldState) : Option String :=
  match st.plot with
  | some p => p.finalSummary
  | none => none

/-- Every plot field except the conversation stacks, for frame lemmas. -/
def plotSig (st : WorldState) :
    Option (String × String × Nat × List String × Option Nat × String × Nat × Nat ×
      Option String × Bool × Option String) :=
  st.plot.map fun p =>
    (p.initialPlot, p.currentSummary, p.lastProcessedMessageTime, p.processedMessageIds,
     p.lastStoryGenerationTime, p.storyProgress, p.lastSummaryTime, p.totalDialogueCount,
     p.evolvedTheme, p.isComplete, p.finalSummary)

/-- The theme-relevant plot fields, for the mutation-chain invariant. -/
def themeStateOf (st : WorldState) : Option (String × Option String) :=
  st.plot.map fun p => (p.initialPlot, p.evolvedTheme)

/-- The chain condition on theme mutation rows: walking the list, each row's
`previousTheme` equals the running theme, starting from the original theme. -/
def chainFrom (t : String) : List ThemeMutationRow → Bool
  | [] => true
  | r :: rs => (r.previousTheme == t) && chainFrom r.newTheme rs

/-- The running theme after a list of mutation rows. -/
def lastTheme (t : String) (l : List ThemeMutationRow) : String :=
  l.foldl (fun _ r => r.newTheme) t

/-- The invariant carried through traces for the mutation-chain property:
indices are exactly `0, 1, 2, …`, the rows chain from the plot's original
theme, and `evolvedTheme || initialPlot` equals the last row's new theme. -/
def themeInv (st : WorldState) : Prop :=
  st.themeMutations.map (·.mutationIndex) = List.range st.themeMutations.length ∧
  match themeStateOf st with
  | none => st.themeMutations = []
  | some (ip, evo) =>
      chainFrom ip st.themeMutations = true ∧ jsOrOpt evo ip = lastTheme ip st.themeMutations

/-- A plot as `createWorldPlot` freshly inserts it. -/
def freshPlot (theme : String) : Plot :=
  { initialPlot := theme, currentSummary := theme, lastProcessedMessageTime := 0,
    processedMessageIds := [], lastStoryGenerationTime := none, storyProgress := "beginning",
    lastSummaryTime := 0, totalDialogueCount := 0, conversationStacks := [],
    evolvedTheme := none, isComplete := false, finalSummary := none }

/-- A concrete stack message used by the concrete scenarios. -/
def sMsg (i : String) (t : Nat) : StackMsg :=
  ⟨i, "hi", "c1", "Alice", t⟩

/-- A concrete passage row used by the concrete scenarios. -/
def dummyPassage : Passage :=
  ⟨"p", "⚔️ Conflict", [], [], 0⟩

/-- A world whose plot has processed nothing yet and whose messages table
holds one message not yet synced into the stacks. -/
def c4state : WorldState :=
  { plot := some (freshPlot "T"), passages := [], themeMutations := [],
    messages := [⟨"m1", "p1", "hi", "c1", "Alice", 5⟩], humanPlayers := [] }

/-- A world where the utterance `m1` was already delivered once through the
push path (it sits in the stack) and still sits in the messages table. -/
def c9state : WorldState :=
  { plot := some { freshPlot "T" with conversationStacks := [("p1", [sMsg "m1" 5])] },
    passages := [], themeMutations := [],
    messages := [⟨"m1", "p1", "hi", "c1", "Alice", 5⟩], humanPlayers := [] }

/-- A world with no plot yet but with one message already in the messages
table (sent before plot initialization). -/
def c10state : WorldState :=
  { plot := none, passages := [], themeMutations := [],
    messages := [⟨"m1", "p1", "hi", "c1", "Alice", 5⟩], humanPlayers := [] }

/-- A plot with one pending unprocessed utterance. -/
def c5plot : Plot :=
  { freshPlot "T" with conversationStacks := [("p1", [sMsg "m1" 5])] }

/-- A world holding eleven passages and one pending unprocessed utterance:
the next firing generates the terminal (twelfth) passage. -/
def c5state : WorldState :=
  { plot := some c5plot,
    passages := List.replicate 11 dummyPassage, themeMutations := [], messages := [],
    humanPlayers := [] }

/-- The i-th witness message of the 12-passage trace. -/
def wMsg (i : Nat) : MessageRow :=
  ⟨"m" ++ toString i, "p1", "hello", "c1", "Bob", i + 1⟩

/-- A trace that creates a plot and then drives twelve successful
passage-generator firings, one fresh message each. -/
def wOps : List Op :=
  Op.createPlot "T" "T" 0 ::
    (List.range 12).flatMap fun i => [Op.writeMessage (wMsg i), Op.generate (some "story") (i + 1)]

/-- A plot with two unprocessed AI-authored utterances in one conversation,
last generation at time 1000. -/
def c2aPlot : Plot :=
  { freshPlot "T" with
    conversationStacks := [("p1", [sMsg "a" 1]), ("p2", [sMsg "b" 2])],
    lastStoryGenerationTime := some 1000 }

/-- Two unprocessed AI-authored utterances in one conversation, generation
30 s cooldown not elapsed (last generation at 1000). -/
def c2aState : WorldState :=
  { plot := some c2aPlot,
    passages := [], themeMutations := [], messages := [], humanPlayers := [] }

/-- A plot with one unprocessed utterance from player `h1`, last generation
at time 1000. -/
def c2bPlot : Plot :=
  { freshPlot "T" with
    conversationStacks := [("h1", [sMsg "c" 1])],
    lastStoryGenerationTime := some 1000 }

/-- One unprocessed utterance authored by the human player `h1`, cooldown
not elapsed. -/
def c2bState : WorldState :=
  { plot := some c2bPlot,
    passages := [], themeMutations := [], messages := [], humanPlayers := ["h1"] }

/-- A trace with a plot and two accepted theme mutations. -/
def c7ops : List Op :=
  [Op.createPlot "T" "T" 0,
   Op.themeMutate (some (some "A", some "d")) "c" ["N"] [] 1,
   Op.themeMutate (some (some "B", none)) "c" ["N"] [] 2]

/-- A completed world: twelve passages, `isComplete` set, `finalSummary`
already written. -/
def c8state : WorldState :=
  { plot := some { freshPlot "T" with isComplete := true, finalSummary := some "done" },
    passages := List.replicate 12 dummyPassage, themeMutations := [], messages := [],
    humanPlayers := [] }

/-- A world with processed id `a` and one unprocessed stack message `b`. -/
def c3state : WorldState :=
  { plot := some { freshPlot "T" with
      processedMessageIds := ["a"],
      conversationStacks := [("p1", [sMsg "b" 5])] },
    passages := [], themeMutations := [], messages := [], humanPlayers := [] }

/-- The passage one successful firing generates from `c3state`. -/
def c3passage : Passage :=
  ⟨"x", "⚔️ Conflict", ["b"], ["Alice"], 7⟩

/-- The plot `c7ops` ends with: evolved theme `B` after the two mutations. -/
def c7plot : Plot :=
  { freshPlot "T" with evolvedTheme := some "B" }

/-- The completed plot of `c8state`. -/
def c8plot : Plot :=
  { freshPlot "T" with isComplete := true, finalSummary := some "done" }

/-- A plot whose processed-ID set holds `z`, with one unprocessed stack
message `q`. -/
def c9wPlot : Plot :=
  { freshPlot "T" with
    processedMessageIds := ["z"],
    conversationStacks := [("p1", [sMsg "q" 3])] }

/-- A world whose plot already processed utterance `z`. -/
def c9wState : WorldState :=
  { plot := some c9wPlot,
    passages := [], themeMutations := [], messages := [], humanPlayers := [] }

theorem push_passages (pid : String) (m : StackMsg) (st : WorldState) :
    (pushToConversationStackMutation pid m st).passages = st.passages := by
  cases h : st.plot <;> simp [pushToConversationStackMutation, h]

theorem push_themeMutations (pid : String) (m : StackMsg) (st : WorldState) :
    (pushToConversationStackMutation pid m st).themeMutations = st.themeMutations := by
  cases h : st.plot <;> simp [pushToConversationStackMutation, h]

theorem push_messages (pid : String) (m : StackMsg) (st : WorldState) :
    (pushToConversationStackMutation pid m st).messages = st.messages := by
  cases h : st.plot <;> simp [pushToConversationStackMutation, h]

theorem push_plotSig (pid : String) (m : StackMsg) (st : WorldState) :
    plotSig (pushToConversationStackMutation pid m st) = plotSig st := by
  cases h : st.plot <;> simp [pushToConversationStackMutation, plotSig, h]

theorem push_processedIds (pid : String) (m : StackMsg) (st : WorldState) :
    processedIdsOf (pushToConversationStackMutation pid m st) = processedIdsOf st := by
  cases h : st.plot <;> simp [pushToConversationStackMutation, processedIdsOf, h]

theorem push_lastGen (pid : String) (m : StackMsg) (st : WorldState) :
    lastGenOf (pushToConversationStackMutation pid m st) = lastGenOf st := by
  cases h : st.plot <;> simp [pushToConversationStackMutation, lastGenOf, h]

theorem push_themeState (pid : String) (m : StackMsg) (st : WorldState) :
    themeStateOf (pushToConversationStackMutation pid m st) = themeStateOf st := by
  cases h : st.plot <;> simp [pushToConversationStackMutation, themeStateOf, h]

theorem pushMany_cons (a : MessageRow) (t : List MessageRow) (st : WorldState) :
    pushMany (a :: t) st =
      pushMany t (pushToConversationStackMutation a.author
        ⟨a.id, a.text, a.conversationId, a.authorName, a.creationTime⟩ st) := rfl

theorem pushMany_proj {β : Type} (f : WorldState → β)
    (h : ∀ pid m st, f (pushToConversationStackMutation pid m st) = f st) :
    ∀ (l : List MessageRow) (st : WorldState), f (pushMany l st) = f st := by
  intro l
  induction l with
  | nil => intro st; rfl
  | cons a t ih =>
    intro st
    rw [pushMany_cons, ih, h]

theorem sync_proj {β : Type} (f : WorldState → β)
    (h : ∀ pid m st, f (pushToConversationStackMutation pid m st) = f st)
    (st : WorldState) : f (syncMessagesToStacks st) = f st := by
  cases hp : st.plot <;> simp [syncMessagesToStacks, hp]
  exact pushMany_proj f h _ _

theorem sync_passages (st : WorldState) :
    (syncMessagesToStacks st).passages = st.passages :=
  sync_proj _ push_passages st

theorem sync_themeMutations (st : WorldState) :
    (syncMessagesToStacks st).themeMutations = st.themeMutations :=
  sync_proj _ push_themeMutations st

theorem sync_messages (st : WorldState) :
    (syncMessagesToStacks st).messages = st.messages :=
  sync_proj _ push_messages st

theorem sync_plotSig (st : WorldState) :
    plotSig (syncMessagesToStacks st) = plotSig st :=
  sync_proj _ push_plotSig st

theorem sync_processedIds (st : WorldState) :
    processedIdsOf (syncMessagesToStacks st) = processedIdsOf st :=
  sync_proj _ push_processedIds st

theorem sync_lastGen (st : WorldState) :
    lastGenOf (syncMessagesToStacks st) = lastGenOf st :=
  sync_proj _ push_lastGen st

theorem sync_themeState (st : WorldState) :
    themeStateOf (syncMessagesToStacks st) = themeStateOf st :=
  sync_proj _ push_themeState st

theorem mem_setAdd_left {x : String} {l : List String} (y : String) (h : x ∈ l) :
    x ∈ setAdd l y := by
  unfold setAdd
  split <;> simp [h]

theorem mem_setAdd_self (l : List String) (y : String) : y ∈ setAdd l y := by
  unfold setAdd
  split
  · assumption
  · simp

theorem mem_foldl_setAdd_init {x : String} :
    ∀ (l : List String) (init : List String), x ∈ init → x ∈ l.foldl setAdd init := by
  intro l
  induction l with
  | nil => intro init h; exact h
  | cons a t ih => intro init h; exact ih _ (mem_setAdd_left a h)

theorem mem_foldl_setAdd_list {x : String} :
    ∀ (l : List String) (init : List String), x ∈ l → x ∈ l.foldl setAdd init := by
  intro l
  induction l with
  | nil => intro init h; cases h
  | cons a t ih =>
    intro init h
    rcases List.mem_cons.mp h with rfl | h
    · exact mem_foldl_setAdd_init t _ (mem_setAdd_self init x)
    · exact ih _ h

theorem mem_dedupPreserve {x : String} {l : List String} (h : x ∈ l) :
    x ∈ dedupPreserve l :=
  mem_foldl_setAdd_list l [] h

theorem setUnion_mem_left {x : String} {old : List String} (xs : List String) (h : x ∈ old) :
    x ∈ setUnion old xs :=
  mem_foldl_setAdd_init xs _ (mem_dedupPreserve h)

theorem setUnion_mem_right {x : String} (old : List String) {xs : List String} (h : x ∈ xs) :
    x ∈ setUnion old xs :=
  mem_foldl_setAdd_list xs _ h

theorem getNarrativeData_some {st : WorldState} {d : NarrativeData}
    (h : getNarrativeData st = some d) :
    ∃ p, st.plot = some p ∧ d.messages = unprocessedOf p ∧
      d.passageCount = st.passages.length := by
  unfold getNarrativeData at h
  cases hp : st.plot with
  | none => rw [hp] at h; cases h
  | some p =>
    rw [hp] at h
    dsimp at h
    split at h
    · cases h
    · exact ⟨p, rfl, by cases h; simp, by cases h; simp⟩

theorem unprocessedOf_not_processed {p : Plot} {m : StackMsg} (h : m ∈ unprocessedOf p) :
    m.messageId ∉ p.processedMessageIds := by
  unfold unprocessedOf at h
  rw [List.mem_flatten] at h
  obtain ⟨l, hl, hm⟩ := h
  rw [List.mem_map] at hl
  obtain ⟨pr, _, rfl⟩ := hl
  have := (List.mem_filter.mp hm).2
  simpa using this

theorem saveNarrative_passages (n cf : String) (src names : List String) (lpt : Nat)
    (pids cids : List String) (now : Nat) (st : WorldState) :
    (saveNarrative n cf src names lpt pids cids now st).passages =
      st.passages ++ [⟨n, cf, src, names, now⟩] := by
  cases h : st.plot <;> simp [saveNarrative, h]

theorem saveNarrative_themeMutations (n cf : String) (src names : List String) (lpt : Nat)
    (pids cids : List String) (now : Nat) (st : WorldState) :
    (saveNarrative n cf src names lpt pids cids now st).themeMutations = st.themeMutations := by
  cases h : st.plot <;> simp [saveNarrative, h]

theorem saveNarrative_messages (n cf : String) (src names : List String) (lpt : Nat)
    (pids cids : List String) (now : Nat) (st : WorldState) :
    (saveNarrative n cf src names lpt pids cids now st).messages = st.messages := by
  cases h : st.plot <;> simp [saveNarrative, h]

theorem saveNarrative_themeState (n cf : String) (src names : List String) (lpt : Nat)
    (pids cids : List String) (now : Nat) (st : WorldState) :
    themeStateOf (saveNarrative n cf src names lpt pids cids now st) = themeStateOf st := by
  cases h : st.plot <;> simp [saveNarrative, themeStateOf, h]

theorem saveNarrative_processed {st : WorldState} {p : Plot} (h : st.plot = some p)
    (n cf : String) (src names : List String) (lpt : Nat) (pids cids : List String) (now : Nat) :
    processedIdsOf (saveNarrative n cf src names lpt pids cids now st) =
      setUnion p.processedMessageIds pids := by
  simp [saveNarrative, processedIdsOf, h]

theorem saveNarrative_stacks {st : WorldState} {p : Plot} (h : st.plot = some p)
    (n cf : String) (src names : List String) (lpt : Nat) (pids cids : List String) (now : Nat) :
    stacksOf (saveNarrative n cf src names lpt pids cids now st) = [] := by
  simp [saveNarrative, stacksOf, h]

theorem saveNarrative_lastGen {st : WorldState} {p : Plot} (h : st.plot = some p)
    (n cf : String) (src names : List String) (lpt : Nat) (pids cids : List String) (now : Nat) :
    lastGenOf (saveNarrative n cf src names lpt pids cids now st) = some now := by
  simp [saveNarrative, lastGenOf, h]

theorem saveNarrative_isComplete (n cf : String) (src names : List String) (lpt : Nat)
    (pids cids : List String) (now : Nat) (st : WorldState) :
    isCompleteOf (saveNarrative n cf src names lpt pids cids now st) = isCompleteOf st := by
  cases h : st.plot <;> simp [saveNarrative, isCompleteOf, h]

theorem generateAfterSync_none (now : Nat) (st1 : WorldState) :
    generateAfterSync none now st1 = st1 := by
  cases hd : getNarrativeData st1 with
  | none => simp [generateAfterSync, hd]
  | some d =>
    simp only [generateAfterSync, hd]
    split <;> rfl

theorem generateNarrativeRun_none (now : Nat) (st : WorldState) :
    generateNarrativeRun none now st = syncMessagesToStacks st := by
  unfold generateNarrativeRun
  exact generateAfterSync_none now _

theorem generateAfterSync_eq_save {now : Nat} {st1 : WorldState} {d : NarrativeData}
    (content : String) (hd : getNarrativeData st1 = some d)
    (hc : ¬ MAX_PASSAGES ≤ d.passageCount) :
    generateAfterSync (some content) now st1 =
      saveNarrative (jsTrim content) (detectConflictType content)
        (d.messages.map (·.messageId))
        (dedupPreserve (d.messages.map (·.authorName)))
        (maxTimestamp d.messages)
        (d.messages.map (·.messageId))
        (dedupPreserve ((d.messages.map convKey).filter fun c => c != "unknown"))
        now st1 := by
  simp [generateAfterSync, hd, hc]

theorem generateAfterSync_passages (llm : Option String) (now : Nat) (st1 : WorldState) :
    (generateAfterSync llm now st1).passages = st1.passages ∨
    (st1.passages.length < MAX_PASSAGES ∧
      ∃ pp, (generateAfterSync llm now st1).passages = st1.passages ++ [pp] ∧
        ∀ x ∈ pp.sourceMessages, x ∉ processedIdsOf st1) := by
  cases hd : getNarrativeData st1 with
  | none => left; simp [generateAfterSync, hd]
  | some d =>
    by_cases hc : MAX_PASSAGES ≤ d.passageCount
    · left; simp [generateAfterSync, hd, hc]
    · cases llm with
      | none => left; simp [generateAfterSync, hd, hc]
      | some content =>
        right
        obtain ⟨p, hp, hmsgs, hcount⟩ := getNarrativeData_some hd
        refine ⟨by omega,
          ⟨jsTrim content, detectConflictType content, d.messages.map (·.messageId),
            dedupPreserve (d.messages.map (·.authorName)), now⟩, ?_, ?_⟩
        · rw [generateAfterSync_eq_save content hd hc]
          exact saveNarrative_passages ..
        · intro x hx
          rw [List.mem_map] at hx
          obtain ⟨m, hm, rfl⟩ := hx
          rw [hmsgs] at hm
          have hnp := unprocessedOf_not_processed hm
          simpa [processedIdsOf, hp] using hnp

theorem generateAfterSync_processed_mono (llm : Option String) (now : Nat) (st1 : WorldState)
    (x : String) (h : x ∈ processedIdsOf st1) :
    x ∈ processedIdsOf (generateAfterSync llm now st1) := by
  cases hd : getNarrativeData st1 with
  | none => simpa [generateAfterSync, hd] using h
  | some d =>
    by_cases hc : MAX_PASSAGES ≤ d.passageCount
    · simpa [generateAfterSync, hd, hc] using h
    · cases llm with
      | none => simpa [generateAfterSync, hd, hc] using h
      | some content =>
        obtain ⟨p, hp, _, _⟩ := getNarrativeData_some hd
        rw [generateAfterSync_eq_save content hd hc, saveNarrative_processed hp]
        exact setUnion_mem_left _ (by simpa [processedIdsOf, hp] using h)

theorem themeRun_passages (parsed : Option (Option String × Option String))
    (cid : String) (names srcIds : List String) (now : Nat) (st : WorldState) :
    (extractAndSaveThemeMutationRun parsed cid names srcIds now st).passages = st.passages := by
  cases hp : st.plot <;> cases parsed <;>
    simp [extractAndSaveThemeMutationRun, hp]

theorem themeRun_processed (parsed : Option (Option String × Option String))
    (cid : String) (names srcIds : List String) (now : Nat) (st : WorldState) :
    processedIdsOf (extractAndSaveThemeMutationRun parsed cid names srcIds now st) =
      processedIdsOf st := by
  cases hp : st.plot <;> cases parsed <;>
    simp [extractAndSaveThemeMutationRun, processedIdsOf, hp]

theorem generateFinalSummaryRun_fst (llm : Option String) (st : WorldState) :
    (generateFinalSummaryRun llm st).1 = st ∨
    ∃ c, llm = some c ∧
      (generateFinalSummaryRun llm st).1 = updatePlotCompletion (cleanFinalSummary c) true st := by
  unfold generateFinalSummaryRun
  dsimp only
  split
  · left; rfl
  · split
    · left; rfl
    · split
      · left; rfl
      · cases llm with
        | none => left; rfl
        | some c => right; exact ⟨c, rfl, rfl⟩

theorem updatePlotCompletion_passages (fs : String) (ic : Bool) (st : WorldState) :
    (updatePlotCompletion fs ic st).passages = st.passages := by
  cases h : st.plot <;> simp [updatePlotCompletion, h]

theorem updatePlotCompletion_processed (fs : String) (ic : Bool) (st : WorldState) :
    processedIdsOf (updatePlotCompletion fs ic st) = processedIdsOf st := by
  cases h : st.plot <;> simp [updatePlotCompletion, processedIdsOf, h]

theorem updatePlotCompletion_themeMutations (fs : String) (ic : Bool) (st : WorldState) :
    (updatePlotCompletion fs ic st).themeMutations = st.themeMutations := by
  cases h : st.plot <;> simp [updatePlotCompletion, h]

theorem updatePlotCompletion_themeState (fs : String) (ic : Bool) (st : WorldState) :
    themeStateOf (updatePlotCompletion fs ic st) = themeStateOf st := by
  cases h : st.plot <;> simp [updatePlotCompletion, themeStateOf, h]

theorem finalizeRun_passages (llm : Option String) (st : WorldState) :
    ((generateFinalSummaryRun llm st).1).passages = st.passages := by
  rcases generateFinalSummaryRun_fst llm st with h | ⟨c, _, h⟩
  · rw [h]
  · rw [h, updatePlotCompletion_passages]

theorem finalizeRun_processed (llm : Option String) (st : WorldState) :
    processedIdsOf ((generateFinalSummaryRun llm st).1) = processedIdsOf st := by
  rcases generateFinalSummaryRun_fst llm st with h | ⟨c, _, h⟩
  · rw [h]
  · rw [h, updatePlotCompletion_processed]

theorem finalizeRun_themeMutations (llm : Option String) (st : WorldState) :
    ((generateFinalSummaryRun llm st).1).themeMutations = st.themeMutations := by
  rcases generateFinalSummaryRun_fst llm st with h | ⟨c, _, h⟩
  · rw [h]
  · rw [h, updatePlotCompletion_themeMutations]

theorem finalizeRun_themeState (llm : Option String) (st : WorldState) :
    themeStateOf ((generateFinalSummaryRun llm st).1) = themeStateOf st := by
  rcases generateFinalSummaryRun_fst llm st with h | ⟨c, _, h⟩
  · rw [h]
  · rw [h, updatePlotCompletion_themeState]

theorem themeRun_themeState (parsed : Option (Option String × Option String))
    (cid : String) (names srcIds : List String) (now : Nat) (st : WorldState) :
    (extractAndSaveThemeMutationRun parsed cid names srcIds now st).passages = st.passages ∧
    (extractAndSaveThemeMutationRun parsed cid names srcIds now st).messages = st.messages := by
  cases hp : st.plot <;> cases parsed <;>
    simp [extractAndSaveThemeMutationRun, hp]

theorem plotSummaryRun_frame (s p : String) (now : Nat) (st : WorldState) :
    (updatePlotSummaryRun s p now st).passages = st.passages ∧
    processedIdsOf (updatePlotSummaryRun s p now st) = processedIdsOf st ∧
    (updatePlotSummaryRun s p now st).themeMutations = st.themeMutations ∧
    themeStateOf (updatePlotSummaryRun s p now st) = themeStateOf st := by
  cases h : st.plot <;>
    simp [updatePlotSummaryRun, processedIdsOf, themeStateOf, h]

theorem createPlot_frame (ip cs : String) (now : Nat) (st : WorldState) :
    (createWorldPlotRun ip cs now st).passages = st.passages ∧
    (createWorldPlotRun ip cs now st).themeMutations = st.themeMutations ∧
    processedIdsOf (createWorldPlotRun ip cs now st) = processedIdsOf st := by
  cases h : st.plot <;>
    simp [createWorldPlotRun, processedIdsOf, h]

theorem applyOp_passages (st : WorldState) (op : Op) :
    (applyOp st op).passages = st.passages ∨
    (st.passages.length < MAX_PASSAGES ∧
      ∃ pp, (applyOp st op).passages = st.passages ++ [pp] ∧
        ∀ x ∈ pp.sourceMessages, x ∉ processedIdsOf st) := by
  cases op with
  | createPlot ip cs now => left; exact (createPlot_frame ip cs now st).1
  | writeMessage m => left; rfl
  | push pid m => left; exact push_passages ..
  | sync => left; exact sync_passages ..
  | generate llm now =>
    have hs := sync_passages st
    have hpids := sync_processedIds st
    rcases generateAfterSync_passages llm now (syncMessagesToStacks st) with h | ⟨hlt, pp, he, hsrc⟩
    · left
      show (generateAfterSync llm now (syncMessagesToStacks st)).passages = st.passages
      rw [h, hs]
    · right
      rw [hs] at hlt he
      rw [hpids] at hsrc
      exact ⟨hlt, pp, he, hsrc⟩
  | themeMutate parsed cid names srcIds now => left; exact themeRun_passages ..
  | finalize llm => left; exact finalizeRun_passages ..
  | plotSummary s p now => left; exact (plotSummaryRun_frame s p now st).1

theorem applyOp_processed_mono (st : WorldState) (op : Op) (x : String)
    (h : x ∈ processedIdsOf st) : x ∈ processedIdsOf (applyOp st op) := by
  cases op with
  | createPlot ip cs now =>
    rw [show applyOp st (.createPlot ip cs now) = createWorldPlotRun ip cs now st from rfl,
      (createPlot_frame ip cs now st).2.2]
    exact h
  | writeMessage m => exact h
  | push pid m => rw [show applyOp st (.push pid m) = pushToConversationStackMutation pid m st from rfl, push_processedIds]; exact h
  | sync => rw [show applyOp st .sync = syncMessagesToStacks st from rfl, sync_processedIds]; exact h
  | generate llm now =>
    have := sync_processedIds st
    exact generateAfterSync_processed_mono llm now _ x (by rw [this]; exact h)
  | themeMutate parsed cid names srcIds now =>
    rw [show applyOp st (.themeMutate parsed cid names srcIds now)
        = extractAndSaveThemeMutationRun parsed cid names srcIds now st from rfl, themeRun_processed]
    exact h
  | finalize llm =>
    rw [show applyOp st (.finalize llm) = (generateFinalSummaryRun llm st).1 from rfl, finalizeRun_processed]
    exact h
  | plotSummary s p now =>
    rw [show applyOp st (.plotSummary s p now) = updatePlotSummaryRun s p now st from rfl,
      (plotSummaryRun_frame s p now st).2.1]
    exact h

theorem foldl_passages_bound :
    ∀ (ops : List Op) (st : WorldState), st.passages.length ≤ MAX_PASSAGES →
      ((ops.foldl applyOp st).passages.length ≤ MAX_PASSAGES) := by
  intro ops
  induction ops with
  | nil => intro st h; exact h
  | cons op rest ih =>
    intro st h
    rw [List.foldl_cons]
    apply ih
    rcases applyOp_passages st op with he | ⟨hlt, pp, he, _⟩
    · rw [he]; exact h
    · rw [he]; simp; omega

theorem generate_noop_at_max (llm : Option String) (now : Nat) (st : WorldState)
    (h : MAX_PASSAGES ≤ st.passages.length) :
    (generateNarrativeRun llm now st).passages = st.passages := by
  have hs := sync_passages st
  show (generateAfterSync llm now (syncMessagesToStacks st)).passages = st.passages
  cases hd : getNarrativeData (syncMessagesToStacks st) with
  | none => simp [generateAfterSync, hd, hs]
  | some d =>
    obtain ⟨p, hp, _, hcount⟩ := getNarrativeData_some hd
    have hge : MAX_PASSAGES ≤ d.passageCount := by rw [hcount, hs]; exact h
    simp [generateAfterSync, hd, hge, hs]

theorem foldl_processed_mono :
    ∀ (ops : List Op) (st : WorldState) (x : String), x ∈ processedIdsOf st →
      x ∈ processedIdsOf (ops.foldl applyOp st) := by
  intro ops
  induction ops with
  | nil => intro st x h; exact h
  | cons op rest ih =>
    intro st x h
    rw [List.foldl_cons]
    exact ih _ _ (applyOp_processed_mono st op x h)

theorem foldl_no_reprocess :
    ∀ (ops : List Op) (st : WorldState) (x : String), x ∈ processedIdsOf st →
      ∀ pp, pp ∈ (ops.foldl applyOp st).passages → pp ∈ st.passages ∨ x ∉ pp.sourceMessages := by
  intro ops
  induction ops with
  | nil => intro st x _ pp hpp; exact Or.inl hpp
  | cons op rest ih =>
    intro st x hx pp hpp
    rw [List.foldl_cons] at hpp
    rcases ih _ _ (applyOp_processed_mono st op x hx) pp hpp with h | h
    · rcases applyOp_passages st op with he | ⟨_, q, he, hq⟩
      · rw [he] at h; exact Or.inl h
      · rw [he] at h
        rcases List.mem_append.mp h with h1 | h1
        · exact Or.inl h1
        · have hpq : pp = q := by simpa using h1
          exact Or.inr fun hx2 => hq x (hpq ▸ hx2) hx
    · exact Or.inr h

theorem lastTheme_cons (t : String) (r : ThemeMutationRow) (l : List ThemeMutationRow) :
    lastTheme t (r :: l) = lastTheme r.newTheme l := rfl

theorem lastTheme_append (t : String) (l : List ThemeMutationRow) (r : ThemeMutationRow) :
    lastTheme t (l ++ [r]) = r.newTheme := by
  induction l generalizing t with
  | nil => rfl
  | cons a tl ih =>
    rw [List.cons_append, lastTheme_cons]
    exact ih a.newTheme

theorem chainFrom_append {t : String} {l : List ThemeMutationRow} {r : ThemeMutationRow}
    (h1 : chainFrom t l = true) (h2 : r.previousTheme = lastTheme t l) :
    chainFrom t (l ++ [r]) = true := by
  induction l generalizing t with
  | nil =>
    simp [lastTheme] at h2
    simp [chainFrom, h2]
  | cons a tl ih =>
    rw [chainFrom, Bool.and_eq_true] at h1
    rw [List.cons_append, chainFrom, Bool.and_eq_true]
    exact ⟨h1.1, ih h1.2 (by rw [h2, lastTheme_cons])⟩

theorem jsOrOpt_empty {o : Option String} {d : String} (h : jsOrOpt o d = "") : d = "" := by
  cases o with
  | none => exact h
  | some s =>
    by_cases hs : s = ""
    · simpa [jsOrOpt, hs] using h
    · simp [jsOrOpt, hs] at h

theorem generateAfterSync_themeState (llm : Option String) (now : Nat) (st1 : WorldState) :
    themeStateOf (generateAfterSync llm now st1) = themeStateOf st1 := by
  cases hd : getNarrativeData st1 with
  | none => simp [generateAfterSync, hd]
  | some d =>
    by_cases hc : MAX_PASSAGES ≤ d.passageCount
    · simp [generateAfterSync, hd, hc]
    · cases llm with
      | none => simp [generateAfterSync, hd, hc]
      | some content =>
        rw [generateAfterSync_eq_save content hd hc]
        exact saveNarrative_themeState ..

theorem generateAfterSync_themeMutations (llm : Option String) (now : Nat) (st1 : WorldState) :
    (generateAfterSync llm now st1).themeMutations = st1.themeMutations := by
  cases hd : getNarrativeData st1 with
  | none => simp [generateAfterSync, hd]
  | some d =>
    by_cases hc : MAX_PASSAGES ≤ d.passageCount
    · simp [generateAfterSync, hd, hc]
    · cases llm with
      | none => simp [generateAfterSync, hd, hc]
      | some content =>
        rw [generateAfterSync_eq_save content hd hc]
        exact saveNarrative_themeMutations ..

theorem createPlot_themeInv (ip cs : String) (now : Nat) (st : WorldState)
    (h : themeInv st) : themeInv (createWorldPlotRun ip cs now st) := by
  cases hp : st.plot with
  | some p => simpa [createWorldPlotRun, hp] using h
  | none =>
    have hts : themeStateOf st = none := by simp [themeStateOf, hp]
    unfold themeInv at h
    rw [hts] at h
    obtain ⟨hidx, hmuts⟩ := h
    unfold themeInv
    constructor
    · simp [createWorldPlotRun, hp, hmuts]
    · simp [createWorldPlotRun, hp, themeStateOf, hmuts, chainFrom, jsOrOpt, lastTheme]

theorem themeRun_themeInv (parsed : Option (Option String × Option String))
    (cid : String) (names srcIds : List String) (now : Nat) (st : WorldState)
    (h : themeInv st) :
    themeInv (extractAndSaveThemeMutationRun parsed cid names srcIds now st) := by
  cases hp : st.plot with
  | none =>
    cases parsed with
    | none => simpa [extractAndSaveThemeMutationRun, hp] using h
    | some pr => simpa [extractAndSaveThemeMutationRun, hp] using h
  | some p =>
    cases parsed with
    | none => simpa [extractAndSaveThemeMutationRun, hp] using h
    | some pr =>
      obtain ⟨no, dso⟩ := pr
      have hts : themeStateOf st = some (p.initialPlot, p.evolvedTheme) := by
        simp [themeStateOf, hp]
      unfold themeInv at h
      rw [hts] at h
      obtain ⟨hidx, hchain, hlast⟩ := h
      have hrun : extractAndSaveThemeMutationRun (some (no, dso)) cid names srcIds now st =
          { st with
            themeMutations := st.themeMutations ++
              [⟨st.themeMutations.length, jsOrOpt p.evolvedTheme p.initialPlot,
                jsOrOpt no (jsOrOpt p.evolvedTheme p.initialPlot),
                jsOrOpt dso "Theme evolved through character interactions",
                cid, srcIds, names, now⟩],
            plot := some { p with
              evolvedTheme := some (jsOrOpt no (jsOrOpt p.evolvedTheme p.initialPlot)) } } := by
        simp [extractAndSaveThemeMutationRun, hp]
      rw [hrun]
      unfold themeInv
      refine ⟨?_, ?_, ?_⟩
      · show (st.themeMutations ++
            [(⟨st.themeMutations.length, jsOrOpt p.evolvedTheme p.initialPlot,
              jsOrOpt no (jsOrOpt p.evolvedTheme p.initialPlot),
              jsOrOpt dso "Theme evolved through character interactions",
              cid, srcIds, names, now⟩ : ThemeMutationRow)]).map (·.mutationIndex) =
          List.range (st.themeMutations ++
            [(⟨st.themeMutations.length, jsOrOpt p.evolvedTheme p.initialPlot,
              jsOrOpt no (jsOrOpt p.evolvedTheme p.initialPlot),
              jsOrOpt dso "Theme evolved through character interactions",
              cid, srcIds, names, now⟩ : ThemeMutationRow)]).length
        rw [List.map_append, List.length_append, hidx]
        simp [List.range_succ, ← hidx]
      · show chainFrom p.initialPlot (st.themeMutations ++
            [⟨st.themeMutations.length, jsOrOpt p.evolvedTheme p.initialPlot,
              jsOrOpt no (jsOrOpt p.evolvedTheme p.initialPlot),
              jsOrOpt dso "Theme evolved through character interactions",
              cid, srcIds, names, now⟩]) = true
        exact chainFrom_append hchain hlast
      · show jsOrOpt (some (jsOrOpt no (jsOrOpt p.evolvedTheme p.initialPlot))) p.initialPlot =
          lastTheme p.initialPlot (st.themeMutations ++
            [⟨st.themeMutations.length, jsOrOpt p.evolvedTheme p.initialPlot,
              jsOrOpt no (jsOrOpt p.evolvedTheme p.initialPlot),
              jsOrOpt dso "Theme evolved through character interactions",
              cid, srcIds, names, now⟩])
        rw [lastTheme_append]
        by_cases hv : jsOrOpt no (jsOrOpt p.evolvedTheme p.initialPlot) = ""
        · have h1 : jsOrOpt p.evolvedTheme p.initialPlot = "" := jsOrOpt_empty hv
          have h2 : p.initialPlot = "" := jsOrOpt_empty h1
          rw [hv, h2]
          rfl
        · rw [show jsOrOpt (some (jsOrOpt no (jsOrOpt p.evolvedTheme p.initialPlot))) p.initialPlot
              = if (jsOrOpt no (jsOrOpt p.evolvedTheme p.initialPlot)) = "" then p.initialPlot
                else jsOrOpt no (jsOrOpt p.evolvedTheme p.initialPlot) from rfl,
            if_neg hv]

theorem applyOp_themeInv (st : WorldState) (op : Op) (h : themeInv st) :
    themeInv (applyOp st op) := by
  have hgen : ∀ st' : WorldState, themeStateOf st' = themeStateOf st →
      st'.themeMutations = st.themeMutations → themeInv st' := by
    intro st' h1 h2
    unfold themeInv at h ⊢
    rw [h1, h2]
    exact h
  cases op with
  | createPlot ip cs now => exact createPlot_themeInv ip cs now st h
  | writeMessage m => exact hgen _ rfl rfl
  | push pid m => exact hgen _ (push_themeState ..) (push_themeMutations ..)
  | sync => exact hgen _ (sync_themeState st) (sync_themeMutations st)
  | generate llm now =>
    refine hgen _ ?_ ?_
    · rw [show applyOp st (.generate llm now)
          = generateAfterSync llm now (syncMessagesToStacks st) from rfl,
        generateAfterSync_themeState, sync_themeState]
    · rw [show applyOp st (.generate llm now)
          = generateAfterSync llm now (syncMessagesToStacks st) from rfl,
        generateAfterSync_themeMutations, sync_themeMutations]
  | themeMutate parsed cid names srcIds now => exact themeRun_themeInv parsed cid names srcIds now st h
  | finalize llm => exact hgen _ (finalizeRun_themeState ..) (finalizeRun_themeMutations ..)
  | plotSummary s p now =>
    exact hgen _ (plotSummaryRun_frame s p now st).2.2.2 (plotSummaryRun_frame s p now st).2.2.1

theorem initState_themeInv (humans : List String) : themeInv (initState humans) := by
  simp [themeInv, initState, themeStateOf]

theorem runOps_themeInv (humans : List String) (ops : List Op) :
    themeInv (runOps humans ops) := by
  have : ∀ (l : List Op) (st : WorldState), themeInv st → themeInv (l.foldl applyOp st) := by
    intro l
    induction l with
    | nil => intro st h; exact h
    | cons op rest ih =>
      intro st h
      rw [List.foldl_cons]
      exact ih _ (applyOp_themeInv st op h)
  exact this ops _ (initState_themeInv humans)

theorem getThemeMutationsOf_eq (st : WorldState)
    (h : st.themeMutations.map (·.mutationIndex) = List.range st.themeMutations.length) :
    getThemeMutationsOf st = st.themeMutations := by
  apply List.Sorted.insertionSort_eq
  have hpl : List.Pairwise (· < ·) (st.themeMutations.map (·.mutationIndex)) := by
    rw [h]
    exact List.pairwise_lt_range _
  have hpw := List.pairwise_map.mp hpl
  exact hpw.imp fun hab => le_of_lt hab

theorem unprocessedOf_stackPush (p : Plot) (pid : String) (m : StackMsg)
    (hm : m.messageId ∈ p.processedMessageIds) :
    unprocessedOf { p with conversationStacks := stackPush p.conversationStacks pid m } =
      unprocessedOf p := by
  unfold unprocessedOf stackPush
  dsimp only
  split
  · congr 1
    rw [List.map_map]
    apply List.map_congr_left
    intro pr _
    dsimp only [Function.comp]
    by_cases hpid : pr.1 = pid
    · simp [hpid, List.filter_append, hm]
    · simp [hpid]
  · rw [List.map_append, List.flatten_append]
    simp [hm]

/-- C1: for every world (every serialized trace of pipeline jobs from a
fresh world), the number of worldStory passage rows never exceeds
`MAX_PASSAGES = 12`, and once the count equals `MAX_PASSAGES` every further
run of `generateNarrative` — under any trigger firing, with any generation
result and at any time — is a no-op that inserts no worldStory row. -/
theorem passages_bounded (humans : List String) (ops : List Op) :
    (runOps humans ops).passages.length ≤ MAX_PASSAGES ∧
    ((runOps humans ops).passages.length = MAX_PASSAGES →
      ∀ (llm : Option String) (now : Nat),
        (generateNarrativeRun llm now (runOps humans ops)).passages =
          (runOps humans ops).passages) := by
  constructor
  · exact foldl_passages_bound ops (initState humans) (by simp [initState])
  · intro h llm now
    exact generate_noop_at_max llm now _ (le_of_eq h.symm)

theorem passages_bounded_witness :
    (runOps [] wOps).passages.length = MAX_PASSAGES ∧
    (generateNarrativeRun (some "x") 99 (runOps [] wOps)).passages = (runOps [] wOps).passages :=
  ⟨by decide, (passages_bounded [] wOps).2 (by decide) (some "x") 99⟩

/-- C2: the trigger decision `shouldTriggerStoryGeneration` satisfies both
gating cases: (a) with exactly two unprocessed AI-authored utterances in one
conversation and less than `STORY_GENERATION_COOLDOWN` elapsed since
`lastStoryGenerationTime`, it returns `shouldTrigger = false`; (b) with one
unprocessed utterance authored by a human participant it returns
`shouldTrigger = true` at any time, regardless of the cooldown. -/
theorem trigger_gating :
    (∀ (st : WorldState) (p : Plot) (m1 m2 : StackMsg) (now : Nat),
      st.plot = some p →
      unprocessedTagged st.humanPlayers p = [(m1, false), (m2, false)] →
      m1.conversationId = m2.conversationId →
      now - p.lastStoryGenerationTime.getD 0 < STORY_GENERATION_COOLDOWN →
      shouldTriggerStoryGeneration false now st = false) ∧
    (∀ (st : WorldState) (p : Plot) (m : StackMsg) (now : Nat),
      st.plot = some p →
      unprocessedTagged st.humanPlayers p = [(m, true)] →
      shouldTriggerStoryGeneration false now st = true) := by
  constructor
  · intro st p m1 m2 now hplot htag hconv hcool
    simp only [shouldTriggerStoryGeneration, hplot, htag]
    simp [hcool]
  · intro st p m now hplot htag
    simp only [shouldTriggerStoryGeneration, hplot, htag]
    simp

theorem trigger_gating_witness :
    (c2aState.plot = some c2aPlot ∧
      unprocessedTagged c2aState.humanPlayers c2aPlot = [(sMsg "a" 1, false), (sMsg "b" 2, false)] ∧
      (sMsg "a" 1).conversationId = (sMsg "b" 2).conversationId ∧
      1500 - c2aPlot.lastStoryGenerationTime.getD 0 < STORY_GENERATION_COOLDOWN ∧
      shouldTriggerStoryGeneration false 1500 c2aState = false) ∧
    (c2bState.plot = some c2bPlot ∧
      unprocessedTagged c2bState.humanPlayers c2bPlot = [(sMsg "c" 1, true)] ∧
      shouldTriggerStoryGeneration false 1001 c2bState = true) :=
  ⟨⟨by decide, by decide, by decide, by decide,
    trigger_gating.1 c2aState c2aPlot (sMsg "a" 1) (sMsg "b" 2) 1500
      (by decide) (by decide) (by decide) (by decide)⟩,
   ⟨by decide, by decide,
    trigger_gating.2 c2bState c2bPlot (sMsg "c" 1) 1001 (by decide) (by decide)⟩⟩

/-- C3: the processed-utterance-ID set only grows — `saveNarrative` merges
the new ids by set union (every previously processed id survives), every
pipeline job preserves membership — and for every id already in the
processed set, no passage added by any later run includes that id in its
`sourceMessages` (`getNarrativeData` filters every stack entry against the
processed-ID set before the batch is built). -/
theorem processed_ids_monotone :
    (∀ (n cf : String) (src names : List String) (lpt : Nat) (pids cids : List String)
        (now : Nat) (st : WorldState) (x : String),
      x ∈ processedIdsOf st →
      x ∈ processedIdsOf (saveNarrative n cf src names lpt pids cids now st)) ∧
    (∀ (st : WorldState) (op : Op) (x : String),
      x ∈ processedIdsOf st → x ∈ processedIdsOf (applyOp st op)) ∧
    (∀ (ops : List Op) (st : WorldState) (x : String), x ∈ processedIdsOf st →
      ∀ pp, pp ∈ (ops.foldl applyOp st).passages →
        pp ∈ st.passages ∨ x ∉ pp.sourceMessages) := by
  refine ⟨?_, applyOp_processed_mono, foldl_no_reprocess⟩
  intro n cf src names lpt pids cids now st x h
  cases hp : st.plot with
  | none => simp [processedIdsOf, hp] at h
  | some p =>
    rw [saveNarrative_processed hp]
    exact setUnion_mem_left _ (by simpa [processedIdsOf, hp] using h)

theorem processed_ids_monotone_witness :
    ("a" ∈ processedIdsOf c3state) ∧
    ("a" ∈ processedIdsOf (saveNarrative "n" "c" ["b"] ["Alice"] 5 ["b"] ["c1"] 7 c3state)) ∧
    ("a" ∈ processedIdsOf (applyOp c3state Op.sync)) ∧
    (c3passage ∈ ([Op.generate (some "x") 7].foldl applyOp c3state).passages) ∧
    (c3passage ∈ c3state.passages ∨ "a" ∉ c3passage.sourceMessages) :=
  ⟨by decide,
   processed_ids_monotone.1 "n" "c" ["b"] ["Alice"] 5 ["b"] ["c1"] 7 c3state "a" (by decide),
   processed_ids_monotone.2.1 c3state Op.sync "a" (by decide),
   by decide,
   processed_ids_monotone.2.2 [Op.generate (some "x") 7] c3state "a" (by decide) c3passage (by decide)⟩

/-- C4 counterexample: the claim asserts that a failed generation-service
call leaves `conversationStacks` and all other Plot state unchanged from
the state before the firing started; but `generateNarrative` runs
`syncMessagesToStacks` before the service call, so on `c4state` (one
message not yet synced) a firing whose service call fails still mutates the
conversation stacks. -/
theorem generate_failure_mutates_stacks :
    stacksOf (generateNarrativeRun none 100 c4state) ≠ stacksOf c4state := by decide

/-- C4 (amended): if the generation-service call inside `generateNarrative`
fails, the firing inserts no worldStory passage; `processedMessageIds`,
`lastStoryGenerationTime` and every other plot field except
`conversationStacks` are unchanged, as are the theme mutations and the
messages table; nothing is marked processed, so the next evaluation
naturally re-fires.  The one surviving effect is the pre-generation
re-sync: the failed firing equals `syncMessagesToStacks`, which may add
newly arrived messages to the conversation stacks. -/
theorem generate_failure_aborts (now : Nat) (st : WorldState) :
    generateNarrativeRun none now st = syncMessagesToStacks st ∧
    (generateNarrativeRun none now st).passages = st.passages ∧
    plotSig (generateNarrativeRun none now st) = plotSig st ∧
    processedIdsOf (generateNarrativeRun none now st) = processedIdsOf st ∧
    lastGenOf (generateNarrativeRun none now st) = lastGenOf st ∧
    (generateNarrativeRun none now st).themeMutations = st.themeMutations ∧
    (generateNarrativeRun none now st).messages = st.messages := by
  have h := generateNarrativeRun_none now st
  rw [h]
  exact ⟨rfl, sync_passages st, sync_plotSig st, sync_processedIds st, sync_lastGen st,
    sync_themeMutations st, sync_messages st⟩

/-- C5 counterexample: when the passage whose ordinal equals `MAX_PASSAGES`
is generated from `c5state` (eleven passages, one pending utterance), the
persistence step appends the twelfth passage but does NOT set `isComplete`:
right after the terminal append the plot still has `isComplete = false`
(it is set later by `updatePlotCompletion`, after a separate final-summary
service call). -/
theorem terminal_append_not_complete :
    (generateNarrativeRun (some "The end") 50 c5state).passages.length = MAX_PASSAGES ∧
    isCompleteOf (generateNarrativeRun (some "The end") 50 c5state) = false :=
  ⟨by decide, by decide⟩

/-- C5 (amended): the single atomic persistence step (`saveNarrative`)
appends the StoryPassage, merges the consumed utterance ids into the
processed set, clears the conversation stacks and stamps
`lastStoryGenerationTime` — but leaves `isComplete` unchanged; the final
passage instead schedules `generateFinalSummary`, and `isComplete = true`
is written later by `updatePlotCompletion` in a separate mutation, together
with `finalSummary`. -/
theorem terminal_append_effects :
    (∀ (n cf : String) (src names : List String) (lpt : Nat) (pids cids : List String)
        (now : Nat) (st : WorldState) (p : Plot), st.plot = some p →
      (saveNarrative n cf src names lpt pids cids now st).passages =
        st.passages ++ [⟨n, cf, src, names, now⟩] ∧
      processedIdsOf (saveNarrative n cf src names lpt pids cids now st) =
        setUnion p.processedMessageIds pids ∧
      stacksOf (saveNarrative n cf src names lpt pids cids now st) = [] ∧
      lastGenOf (saveNarrative n cf src names lpt pids cids now st) = some now ∧
      isCompleteOf (saveNarrative n cf src names lpt pids cids now st) = p.isComplete) ∧
    (∀ (fs : String) (st : WorldState) (p : Plot), st.plot = some p →
      isCompleteOf (updatePlotCompletion fs true st) = true ∧
      finalSummaryOf (updatePlotCompletion fs true st) = some fs) := by
  constructor
  · intro n cf src names lpt pids cids now st p hp
    refine ⟨saveNarrative_passages .., saveNarrative_processed hp .., saveNarrative_stacks hp ..,
      saveNarrative_lastGen hp .., ?_⟩
    rw [saveNarrative_isComplete]
    simp [isCompleteOf, hp]
  · intro fs st p hp
    constructor <;> simp [updatePlotCompletion, isCompleteOf, finalSummaryOf, hp]

theorem terminal_append_effects_witness :
    (c5state.plot = some c5plot ∧
      (saveNarrative "n" "c" ["m1"] ["Alice"] 5 ["m1"] ["c1"] 50 c5state).passages =
        c5state.passages ++ [⟨"n", "c", ["m1"], ["Alice"], 50⟩] ∧
      isCompleteOf (saveNarrative "n" "c" ["m1"] ["Alice"] 5 ["m1"] ["c1"] 50 c5state) =
        c5plot.isComplete) ∧
    isCompleteOf (updatePlotCompletion "fs" true c5state) = true :=
  ⟨⟨by decide,
    (terminal_append_effects.1 "n" "c" ["m1"] ["Alice"] 5 ["m1"] ["c1"] 50 c5state c5plot
      (by decide)).1,
    (terminal_append_effects.1 "n" "c" ["m1"] ["Alice"] 5 ["m1"] ["c1"] 50 c5state c5plot
      (by decide)).2.2.2.2⟩,
   (terminal_append_effects.2 "fs" c5state c5plot (by decide)).1⟩

/-- C6: the passage-phase mapping `getPassagePhase` is a function of the
next passage's ordinal alone; with `MAX_PASSAGES = 12`, ordinals 1–3 map to
beginning, 4–6 to rising, 7–9 to climax, 10–12 to conclusion, and ordinal
12 is the unique terminal (final) passage among 0–12. -/
theorem passage_phase_mapping :
    getPassagePhase 1 = Phase.beginning ∧ getPassagePhase 2 = Phase.beginning ∧
    getPassagePhase 3 = Phase.beginning ∧ getPassagePhase 4 = Phase.rising ∧
    getPassagePhase 5 = Phase.rising ∧ getPassagePhase 6 = Phase.rising ∧
    getPassagePhase 7 = Phase.climax ∧ getPassagePhase 8 = Phase.climax ∧
    getPassagePhase 9 = Phase.climax ∧ getPassagePhase 10 = Phase.conclusion ∧
    getPassagePhase 11 = Phase.conclusion ∧ getPassagePhase 12 = Phase.conclusion ∧
    isFinalPassage 12 = true ∧
    ((List.range 12).all fun n => !isFinalPassage n) = true := by decide

/-- C7: for every world (every serialized trace from a fresh world), the
ThemeMutation rows ordered by `mutationIndex` (exactly what
`getThemeMutations` returns) have strictly increasing indices (`0, 1, 2, …`
with no duplicates) and form a chain: each row's `previousTheme` equals the
preceding row's `newTheme`, the first row's `previousTheme` being the
plot's original theme. -/
theorem theme_mutation_chain (humans : List String) (ops : List Op) :
    getThemeMutationsOf (runOps humans ops) = (runOps humans ops).themeMutations ∧
    (getThemeMutationsOf (runOps humans ops)).map (·.mutationIndex) =
      List.range (getThemeMutationsOf (runOps humans ops)).length ∧
    ∀ p, (runOps humans ops).plot = some p →
      chainFrom p.initialPlot (getThemeMutationsOf (runOps humans ops)) = true := by
  obtain ⟨hidx, hrest⟩ := runOps_themeInv humans ops
  have hsort := getThemeMutationsOf_eq _ hidx
  refine ⟨hsort, by rw [hsort]; exact hidx, ?_⟩
  intro p hp
  rw [hsort]
  have hts : themeStateOf (runOps humans ops) = some (p.initialPlot, p.evolvedTheme) := by
    simp [themeStateOf, hp]
  rw [hts] at hrest
  exact hrest.1

theorem theme_mutation_chain_witness :
    (runOps [] c7ops).plot = some c7plot ∧
    chainFrom c7plot.initialPlot (getThemeMutationsOf (runOps [] c7ops)) = true :=
  ⟨by decide, (theme_mutation_chain [] c7ops).2.2 c7plot (by decide)⟩

/-- C8: the finalizer is idempotent — once the story is complete and a
(truthy) `finalSummary` is stored, any further `generateFinalSummary` run
leaves the state untouched and returns the already-stored summary, whatever
the generation service would have answered; so `finalSummary` is never
overwritten. -/
theorem finalize_idempotent (st : WorldState) (p : Plot) (s : String) (llm : Option String)
    (h1 : st.plot = some p) (h2 : p.isComplete = true) (h3 : p.finalSummary = some s)
    (h4 : s ≠ "") (h5 : MAX_PASSAGES ≤ st.passages.length) :
    generateFinalSummaryRun llm st = (st, some s) := by
  have hlen : ((st.passages.reverse.take MAX_PASSAGES).reverse).length = MAX_PASSAGES := by
    simp [List.length_take]
    omega
  simp [generateFinalSummaryRun, hlen, h1, h2, h3, jsTruthy, h4]

theorem finalize_idempotent_witness :
    (c8state.plot = some c8plot ∧ c8plot.isComplete = true ∧
      c8plot.finalSummary = some "done" ∧ "done" ≠ "" ∧
      MAX_PASSAGES ≤ c8state.passages.length) ∧
    generateFinalSummaryRun (some "other") c8state = (c8state, some "done") :=
  ⟨⟨by decide, by decide, by decide, by decide, by decide⟩,
   finalize_idempotent c8state c8plot "done" (some "other")
     (by decide) (by decide) (by decide) (by decide) (by decide)⟩

/-- C9 counterexample: accumulation is not idempotent for a not-yet-processed
utterance — in `c9state` the utterance `m1` was already delivered to the
stack once and still sits in the messages table; the pre-generation re-sync
delivers it again, after which the trigger evaluator counts it twice and the
generation batch contains its id twice. -/
theorem resync_duplicates_unprocessed :
    (unprocessedListOf (syncMessagesToStacks c9state)).length = 2 ∧
    triggerUnprocessedCount (syncMessagesToStacks c9state) = 2 ∧
    ((getNarrativeData (syncMessagesToStacks c9state)).map fun d => d.messages.map (·.messageId)) =
      some ["m1", "m1"] :=
  ⟨by decide, by decide, by decide⟩

/-- C9 (amended): the only deduplication is the processed-ID set —
re-delivering an utterance whose id is already in `processedMessageIds`
leaves the effective pipeline state unchanged (the unprocessed list is
unaffected by the duplicate push, and no processed id ever appears in the
batch `getNarrativeData` builds); but a duplicate of a not-yet-processed
utterance is appended to the stack and counted and batched twice. -/
theorem processed_id_filtering :
    (∀ (st : WorldState) (p : Plot) (pid : String) (m : StackMsg),
      st.plot = some p → m.messageId ∈ p.processedMessageIds →
      unprocessedListOf (pushToConversationStackMutation pid m st) = unprocessedListOf st) ∧
    (∀ (st : WorldState) (d : NarrativeData) (x : String),
      x ∈ processedIdsOf st → getNarrativeData st = some d →
      x ∉ d.messages.map (·.messageId)) := by
  constructor
  · intro st p pid m hp hm
    have hpush : pushToConversationStackMutation pid m st =
        { st with plot := some { p with
            conversationStacks := stackPush p.conversationStacks pid m } } := by
      simp [pushToConversationStackMutation, hp]
    rw [hpush]
    have h1 : unprocessedListOf
        ({ st with plot := some { p with
            conversationStacks := stackPush p.conversationStacks pid m } } : WorldState) =
        unprocessedOf { p with conversationStacks := stackPush p.conversationStacks pid m } := rfl
    have h2 : unprocessedListOf st = unprocessedOf p := by
      simp [unprocessedListOf, hp]
    rw [h1, h2]
    exact unprocessedOf_stackPush p pid m hm
  · intro st d x hx hd hmem
    obtain ⟨p, hp, hmsgs, _⟩ := getNarrativeData_some hd
    rw [List.mem_map] at hmem
    obtain ⟨m, hm, hid⟩ := hmem
    rw [hmsgs] at hm
    have hnp := unprocessedOf_not_processed hm
    rw [hid] at hnp
    exact hnp (by simpa [processedIdsOf, hp] using hx)

theorem processed_id_filtering_witness :
    (c9wState.plot = some c9wPlot ∧ ("z" : String) ∈ c9wPlot.processedMessageIds ∧
      unprocessedListOf (pushToConversationStackMutation "p1" (sMsg "z" 9) c9wState) =
        unprocessedListOf c9wState) ∧
    (("z" : String) ∈ processedIdsOf c9wState ∧
      getNarrativeData c9wState = some ⟨[sMsg "q" 3], 0⟩ ∧
      ("z" : String) ∉ ([sMsg "q" 3].map (·.messageId))) :=
  ⟨⟨by decide, by decide,
    processed_id_filtering.1 c9wState c9wPlot "p1" (sMsg "z" 9) (by decide) (by decide)⟩,
   ⟨by decide, by decide,
    processed_id_filtering.2 c9wState ⟨[sMsg "q" 3], 0⟩ "z" (by decide) (by decide)⟩⟩

/-- C10 counterexample: with no worldPlot row, `pushToConversationStackMutation`
indeed writes nothing — but the utterance is NOT permanently discarded: it
stays in the messages table, and once a plot is created (with
`lastProcessedMessageTime = 0`) the pre-generation re-sync imports it into a
conversation stack, where it awaits processing. -/
theorem push_no_plot_not_dropped_forever :
    pushToConversationStackMutation "p1" (sMsg "m1" 5) c10state = c10state ∧
    (unprocessedListOf (syncMessagesToStacks (createWorldPlotRun "T" "T" 9
      (pushToConversationStackMutation "p1" (sMsg "m1" 5) c10state)))).map (·.messageId) =
      ["m1"] :=
  ⟨by decide, by decide⟩

/-- C10 (amended): when no worldPlot row exists,
`pushToConversationStackMutation` returns without performing any write: no
stack is created and the state is entirely unchanged (the push is silently
skipped rather than queued or rejected with an error).  The utterance is
only dropped from the push path, not forever: it remains in the messages
table and is re-imported by the re-sync once a plot exists. -/
theorem push_no_plot_noop (pid : String) (m : StackMsg) (st : WorldState)
    (h : st.plot = none) : pushToConversationStackMutation pid m st = st := by
  simp [pushToConversationStackMutation, h]

theorem push_no_plot_noop_witness :
    c10state.plot = none ∧
    pushToConversationStackMutation "p2" (sMsg "m9" 1) c10state = c10state :=
  ⟨by decide, push_no_plot_noop "p2" (sMsg "m9" 1) c10state (by decide)⟩

end WorldStory
